import Mathlib

/-!
Verification development for the Excel-processor function
(`src/HttpTrigger/__init__.py`): a shallow embedding of the pipeline
`process_excel_file` / `create_summary_excel` / `main` and proofs of the
specified properties.

Modelling conventions:
* A cell scalar is a tagged value: a number (modelled exactly as `ℚ`,
  standing for the source's floats), a non-numeric non-missing value
  (text/boolean/temporal, all excluded from numeric statistics alike,
  collapsed into the `str` tag), or missing (`NaN`/empty).
* A pandas `DataFrame` read from one sheet is a `Table`: a header list and a
  list of rows.
* `df.select_dtypes(include=['number'])` classifies a column as numeric when
  the frame has at least one row and no cell of the column is non-numeric
  text (an all-missing column is `float64`, hence numeric; a zero-row frame
  has `object` columns, hence none numeric).
* Reading one sheet (`pd.read_excel`) may raise; this fallibility is
  modelled by giving the pipeline each sheet as `Except String Table`
  (error = the exception message).
* The standard deviation `float(col_data.std())` is the square root of the
  sample (ddof=1) variance; since the square root of a rational is
  irrational in general, the pipeline stores the exact radicand `stdSq`
  and the real-valued view `ColumnStats.std = Real.sqrt stdSq` is derived.
  The code's `std = 0` for a single value coincides with `Real.sqrt 0 = 0`.
* `openpyxl` worksheets are modelled as the ordered list of cell writes the
  code issues (an explicit builder sequence); `getCell` reads a coordinate
  with last-write-wins semantics.
-/

namespace XP

/-- A cell scalar: numeric, non-numeric (text/bool/temporal), or missing. -/
inductive Scalar
  | num (q : ℚ)
  | str (s : String)
  | missing
deriving DecidableEq

/-- One sheet's tabular data as read by `pd.read_excel`: column headers and
data rows. -/
structure Table where
  header : List String
  rows : List (List Scalar)
deriving DecidableEq

/-- The cells of column `j`, one per row (absent cells read as missing). -/
def colCells (t : Table) (j : ℕ) : List Scalar :=
  t.rows.map (fun r => r.getD j Scalar.missing)

/-- Whether a scalar is compatible with a numeric dtype (numbers and
missing values are; text is not). -/
def numericCell : Scalar → Bool
  | .num _ => true
  | .missing => true
  | .str _ => false

/-- `df.select_dtypes(include=['number'])` membership for column `j`:
the frame is non-empty and every cell of the column is numeric or missing. -/
def isNumericCol (t : Table) (j : ℕ) : Bool :=
  !t.rows.isEmpty && (colCells t j).all numericCell

/-- Positions of the numeric columns, in column order
(`df.select_dtypes(include=['number']).columns`). -/
def numericIdxs (t : Table) : List ℕ :=
  (List.range t.header.length).filter (fun j => isNumericCol t j)

/-- `df[col].dropna()`: the numeric values of a column with missing values
removed. -/
def dropna (cells : List Scalar) : List ℚ :=
  cells.filterMap (fun c =>
    match c with
    | .num q => some q
    | _ => none)

/-- Insert into a sorted list (ascending). -/
def insertSorted (x : ℚ) : List ℚ → List ℚ
  | [] => [x]
  | y :: ys => if x ≤ y then x :: y :: ys else y :: insertSorted x ys

/-- Sort ascending (insertion sort). -/
def sortQ (l : List ℚ) : List ℚ := l.foldr insertSorted []

/-- `col_data.mean()`: arithmetic mean. -/
def listMean (l : List ℚ) : ℚ := l.sum / l.length

/-- `col_data.median()`: middle element of the sorted values, or the average
of the two middle elements for an even count. -/
def listMedian (l : List ℚ) : ℚ :=
  let s := sortQ l
  let n := s.length
  if n % 2 = 1 then s.getD (n / 2) 0
  else (s.getD (n / 2 - 1) 0 + s.getD (n / 2) 0) / 2

/-- `col_data.min()`. -/
def listMin (l : List ℚ) : ℚ := l.foldr min (l.headD 0)

/-- `col_data.max()`. -/
def listMax (l : List ℚ) : ℚ := l.foldr max (l.headD 0)

/-- The sample (ddof = 1) variance used by `col_data.std()`:
`Σ (x - mean)² / (n - 1)`. -/
def sampleVar (l : List ℚ) : ℚ :=
  ((l.map (fun x => (x - listMean l) ^ 2)).sum) / ((l.length : ℚ) - 1)

/-- The per-column statistics record built at lines 84–91 of the source.
`stdSq` is the exact radicand of the stored standard deviation: the sample
variance when `count > 1`, else `0` (the code stores `std` itself; see
`ColumnStats.std`). -/
structure ColumnStats where
  mean : ℚ
  median : ℚ
  stdSq : ℚ
  min : ℚ
  max : ℚ
  count : ℕ
deriving DecidableEq

/-- The `"std"` entry of the stats record: `float(col_data.std())` when
`count > 1` (the square root of the sample variance), else the literal `0`;
both cases are `Real.sqrt stdSq`. -/
noncomputable def ColumnStats.std (c : ColumnStats) : ℝ := Real.sqrt (c.stdSq : ℝ)

/-- Statistics of one non-empty list of non-missing values (lines 84–91). -/
def computeStats (l : List ℚ) : ColumnStats :=
  { mean := listMean l
    median := listMedian l
    stdSq := if 1 < l.length then sampleVar l else 0
    min := listMin l
    max := listMax l
    count := l.length }

/-- One sheet's analysis: column name → stats, in column order
(insertion order of the Python dict `sheet_stats`). -/
abbrev SheetStats := List (String × ColumnStats)

/-- Lines 80–91: stats for every numeric column having at least one
non-missing value. -/
def sheetStats (t : Table) : SheetStats :=
  (numericIdxs t).filterMap (fun j =>
    let vals := dropna (colCells t j)
    if 0 < vals.length then some (t.header.getD j "", computeStats vals) else none)

/-- One entry of `results["sheets_processed"]`: a plain sheet name on
success, or a name annotated with the exception message. -/
inductive Outcome
  | ok (name : String)
  | errored (name : String) (msg : String)
deriving DecidableEq

/-- The string actually appended to `results["sheets_processed"]`. -/
def Outcome.render : Outcome → String
  | .ok n => n
  | .errored n m => n ++ " (ERROR: " ++ m ++ ")"

/-- The sheet name of a successful (unannotated) outcome. -/
def Outcome.okName : Outcome → Option String
  | .ok n => some n
  | .errored _ _ => none

/-- The per-sheet loop at lines 70–98: each sheet either read into a table
or raising with a message. Returns (outcome list, `results["summary"]`,
`all_data`), each in sheet order. A sheet that reads fine but has no
numeric column adds nothing (the appends at lines 93–95 sit inside
`if numeric_cols:`). -/
def processSheets :
    List (String × Except String Table) →
      List Outcome × List (String × SheetStats) × List (String × Table)
  | [] => ([], [], [])
  | (name, Except.error e) :: rest =>
    let r := processSheets rest
    (Outcome.errored name e :: r.1, r.2.1, r.2.2)
  | (name, Except.ok t) :: rest =>
    let r := processSheets rest
    if numericIdxs t = [] then r
    else (Outcome.ok name :: r.1, (name, sheetStats t) :: r.2.1, (name, t) :: r.2.2)

/-- A value written into a cell of the generated workbook. `sqrtRounded sq`
denotes the 2-decimal rounding of `√sq` (the written "Std Dev" value);
it is kept symbolically exact because the square root of a rational is
irrational in general. -/
inductive CellVal
  | str (s : String)
  | rat (q : ℚ)
  | nat (n : ℕ)
  | sqrtRounded (sq : ℚ)
  | empty
deriving DecidableEq

/-- The cell value written for one original-data scalar. -/
def scalarToCell : Scalar → CellVal
  | .num q => .rat q
  | .str s => .str s
  | .missing => .empty

/-- Python's `round(q, 2)` on exact values: banker's rounding (round half to
even) of `q · 100`, divided by `100`. -/
def round2 (q : ℚ) : ℚ :=
  let x := q * 100
  let n : ℤ := ⌊x⌋
  let f : ℚ := x - (n : ℚ)
  let r : ℤ :=
    if 1 / 2 < f then n + 1
    else if f < 1 / 2 then n
    else if n % 2 = 0 then n else n + 1
  (r : ℚ) / 100

/-- Write a list of values along row `i` starting at column `k`
(`enumerate(values, k)` feeding `ws.cell(row=i, column=·)`). -/
def cellRowWrites (i k : ℕ) : List CellVal → List ((ℕ × ℕ) × CellVal)
  | [] => []
  | v :: vs => ((i, k), v) :: cellRowWrites i (k + 1) vs

/-- Write the data rows verbatim starting at row `i`
(`enumerate(df.values, 2)`, lines 165–167). -/
def dataWrites (i : ℕ) : List (List Scalar) → List ((ℕ × ℕ) × CellVal)
  | [] => []
  | r :: rs => cellRowWrites i 1 (r.map scalarToCell) ++ dataWrites (i + 1) rs

/-- The summary sheet's column headers (line 134). -/
def headerTitles : List String :=
  ["Column", "Mean", "Median", "Std Dev", "Min", "Max", "Count"]

/-- One data row of the summary sheet (lines 143–149): name, rounded stats,
count. -/
def statRowWrites (row : ℕ) (colName : String) (c : ColumnStats) :
    List ((ℕ × ℕ) × CellVal) :=
  [((row, 1), .str colName), ((row, 2), .rat (round2 c.mean)),
   ((row, 3), .rat (round2 c.median)), ((row, 4), .sqrtRounded c.stdSq),
   ((row, 5), .rat (round2 c.min)), ((row, 6), .rat (round2 c.max)),
   ((row, 7), .nat c.count)]

/-- The summary sheet's data rows for one analyzed sheet, one row per
column, starting at `row`. -/
def statsRowsWrites (row : ℕ) : SheetStats → List ((ℕ × ℕ) × CellVal)
  | [] => []
  | (n, c) :: rest => statRowWrites row n c ++ statsRowsWrites (row + 1) rest

/-- The summary-sheet blocks (lines 126–152): for each analyzed sheet, a
title cell, a blank row, the header row, one row per column, then two blank
rows before the next block. -/
def summaryBlocks (row : ℕ) : List (String × SheetStats) → List ((ℕ × ℕ) × CellVal)
  | [] => []
  | (name, stats) :: rest =>
    ((row, 1), CellVal.str ("Sheet: " ++ name)) ::
      (cellRowWrites (row + 2) 1 (headerTitles.map CellVal.str) ++
        statsRowsWrites (row + 3) stats ++
        summaryBlocks (row + 3 + stats.length + 2) rest)

/-- The bar chart the code attempts to add (lines 173–183): title, axis
titles, the referenced column and row range, and the anchor cell. -/
structure ChartSpec where
  title : String
  yTitle : String
  xTitle : String
  minCol : ℕ
  minRow : ℕ
  maxRow : ℕ
  anchor : String
deriving DecidableEq

/-- Lines 170–183: a chart is attempted iff the table has a numeric column
(the code looks at the first five) and more than one row; it plots the
first numeric column over rows `2 .. min(20, len(df)+1)`. -/
def chartSpec (name : String) (t : Table) : Option ChartSpec :=
  if (numericIdxs t).take 5 ≠ [] ∧ 1 < t.rows.length then
    some { title := "Data Overview - " ++ name
           yTitle := "Values"
           xTitle := "Records"
           minCol := ((numericIdxs t).take 5).headD 0 + 1
           minRow := 2
           maxRow := Nat.min 20 (t.rows.length + 1)
           anchor := "H2" }
  else none

/-- One generated worksheet: its name, the ordered sequence of cell writes,
and the chart attached to it (if any was attempted). -/
structure Sheet where
  name : String
  cells : List ((ℕ × ℕ) × CellVal)
  chart : Option ChartSpec
deriving DecidableEq

/-- The generated workbook: its sheets in creation order. -/
abbrev Workbook := List Sheet

/-- Read a coordinate from a write sequence: the last write at that
coordinate wins (`openpyxl` overwrite semantics). -/
def getCell (ws : List ((ℕ × ℕ) × CellVal)) (r c : ℕ) : Option CellVal :=
  (ws.reverse.find? (fun p => p.1.1 == r && p.1.2 == c)).map Prod.snd

/-- The "Summary_Statistics" sheet (lines 120–152). -/
def summarySheetOf (summary : List (String × SheetStats)) : Sheet :=
  { name := "Summary_Statistics", cells := summaryBlocks 1 summary, chart := none }

/-- The `"Original_{name}"` sheet (lines 155–183): styled header row at
row 1, the data rows verbatim from row 2, and the attempted chart. -/
def originalSheet (name : String) (t : Table) : Sheet :=
  { name := "Original_" ++ name
    cells := cellRowWrites 1 1 (t.header.map CellVal.str) ++ dataWrites 2 t.rows
    chart := chartSpec name t }

/-- `create_summary_excel` (lines 110–206): the summary sheet followed by
one original-data sheet per retained table, in order. -/
def createSummaryExcel (summary : List (String × SheetStats))
    (allData : List (String × Table)) : Workbook :=
  summarySheetOf summary :: allData.map (fun p => originalSheet p.1 p.2)

/-- The `results` record returned by `process_excel_file` (lines 60–108). -/
structure PipelineResult where
  filename : String
  sheetsProcessed : List String
  summary : List (String × SheetStats)
  chartsCreated : Bool
  outputFile : Option Workbook
  outputFilename : Option String

/-- `process_excel_file` (lines 49–108): run the per-sheet loop, then build
the output workbook iff the summary mapping is non-empty. -/
def processExcelFile (sheets : List (String × Except String Table))
    (filename : String) : PipelineResult :=
  let r := processSheets sheets
  { filename := filename
    sheetsProcessed := r.1.map Outcome.render
    summary := r.2.1
    chartsCreated := false
    outputFile := if r.2.1.isEmpty then none else some (createSummaryExcel r.2.1 r.2.2)
    outputFilename := if r.2.1.isEmpty then none else some ("processed_" ++ filename) }

/-- The decoded request body: optional filename and the file content, which
is absent, a workbook that fails to parse at all, or a parsed sheet list. -/
structure Request where
  filename : Option String
  content : Option (Except String (List (String × Except String Table)))

/-- The HTTP response: a JSON success body, or an error body with a status
code (400 for missing content, 500 from the catch-all at lines 41–47). -/
inductive HttpResponse
  | ok (body : PipelineResult)
  | err (msg : String) (status : ℕ)

/-- `process_excel_file` with the report builder's fallibility explicit:
the call at line 102 is unprotected, so a builder exception propagates out
of the whole function, discarding the computed `results`. -/
def processExcelFileE
    (builder : List (String × SheetStats) → List (String × Table) →
      Except String Workbook)
    (sheets : List (String × Except String Table)) (filename : String) :
    Except String PipelineResult :=
  let r := processSheets sheets
  if r.2.1.isEmpty then
    Except.ok
      { filename := filename
        sheetsProcessed := r.1.map Outcome.render
        summary := r.2.1
        chartsCreated := false
        outputFile := none
        outputFilename := none }
  else
    match builder r.2.1 r.2.2 with
    | Except.error e => Except.error e
    | Except.ok wb =>
      Except.ok
        { filename := filename
          sheetsProcessed := r.1.map Outcome.render
          summary := r.2.1
          chartsCreated := false
          outputFile := some wb
          outputFilename := some ("processed_" ++ filename) }

/-- `main` (lines 11–47), over an abstract report builder: missing content
is a 400; any exception escaping `process_excel_file` (workbook not
parseable, or the report builder failing) is caught and returned as a 500
error response with the exception's message. -/
def mainHandler
    (builder : List (String × SheetStats) → List (String × Table) →
      Except String Workbook)
    (req : Request) : HttpResponse :=
  match req.content with
  | none => HttpResponse.err "No file content provided" 400
  | some (Except.error e) => HttpResponse.err e 500
  | some (Except.ok sheets) =>
    match processExcelFileE builder sheets (req.filename.getD "input.xlsx") with
    | Except.error e => HttpResponse.err e 500
    | Except.ok r => HttpResponse.ok r

/-! ### Per-sheet contribution functions (closed forms of the loop) -/

/-- What one sheet contributes to the outcome list. -/
def outcomeOf (p : String × Except String Table) : Option Outcome :=
  match p.2 with
  | Except.error e => some (Outcome.errored p.1 e)
  | Except.ok t => if numericIdxs t = [] then none else some (Outcome.ok p.1)

/-- What one sheet contributes to `results["summary"]`. -/
def summaryOf (p : String × Except String Table) : Option (String × SheetStats) :=
  match p.2 with
  | Except.error _ => none
  | Except.ok t => if numericIdxs t = [] then none else some (p.1, sheetStats t)

/-- What one sheet contributes to `all_data`. -/
def allDataOf (p : String × Except String Table) : Option (String × Table) :=
  match p.2 with
  | Except.error _ => none
  | Except.ok t => if numericIdxs t = [] then none else some (p.1, t)

/-! ### Concrete inputs used by witnesses and counterexamples -/

/-- The spec's scenario sheet: one numeric column `Revenue = [10, 20, 30]`. -/
def salesTable : Table :=
  { header := ["Revenue"], rows := [[.num 10], [.num 20], [.num 30]] }

/-- A workbook with the single sheet `Sales`. -/
def salesSheets : List (String × Except String Table) :=
  [("Sales", Except.ok salesTable)]

/-- A sheet with a single text column and no numeric column. -/
def notesTable : Table :=
  { header := ["Comment"], rows := [[.str "hi"]] }

/-- A sheet whose single column is numeric (`float64` of `NaN`) but has no
non-missing value. -/
def nanTable : Table :=
  { header := ["A"], rows := [[.missing]] }

/-- A workbook where `Sales` reads fine and `Bad` raises while being read. -/
def mixedSheets : List (String × Except String Table) :=
  [("Sales", Except.ok salesTable), ("Bad", Except.error "boom")]

/-- The stats the scenario expects for `Sales.Revenue` (with the exact
radicand `stdSq = 100`, so `std = √100 = 10`). -/
def salesStats : ColumnStats :=
  { mean := 20, median := 20, stdSq := 100, min := 10, max := 30, count := 3 }

/-- The chart attempted on `Original_Sales` for the scenario input. -/
def salesChart : ChartSpec :=
  { title := "Data Overview - Sales", yTitle := "Values", xTitle := "Records"
    minCol := 1, minRow := 2, maxRow := 4, anchor := "H2" }

/-! ### Helper lemmas -/

/-- The per-sheet loop treats a concatenation of sheet lists componentwise. -/
theorem processSheets_append (xs ys : List (String × Except String Table)) :
    processSheets (xs ++ ys) =
      ((processSheets xs).1 ++ (processSheets ys).1,
       (processSheets xs).2.1 ++ (processSheets ys).2.1,
       (processSheets xs).2.2 ++ (processSheets ys).2.2) := by
  induction xs with
  | nil => simp [processSheets]
  | cons hd tl ih =>
    obtain ⟨name, exc⟩ := hd
    cases exc with
    | error e => simp [processSheets, ih]
    | ok t =>
      by_cases hn : numericIdxs t = []
      · simp [processSheets, hn, ih]
      · simp [processSheets, hn, ih]

/-- Closed form of the outcome list. -/
theorem processSheets_outcomes_eq (sheets : List (String × Except String Table)) :
    (processSheets sheets).1 = sheets.filterMap outcomeOf := by
  induction sheets with
  | nil => simp [processSheets]
  | cons hd tl ih =>
    obtain ⟨name, exc⟩ := hd
    cases exc with
    | error e => simp [processSheets, outcomeOf, ih]
    | ok t =>
      by_cases hn : numericIdxs t = []
      · simp [processSheets, outcomeOf, hn, ih]
      · simp [processSheets, outcomeOf, hn, ih]

/-- Closed form of `results["summary"]`. -/
theorem processSheets_summary_eq (sheets : List (String × Except String Table)) :
    (processSheets sheets).2.1 = sheets.filterMap summaryOf := by
  induction sheets with
  | nil => simp [processSheets]
  | cons hd tl ih =>
    obtain ⟨name, exc⟩ := hd
    cases exc with
    | error e => simp [processSheets, summaryOf, ih]
    | ok t =>
      by_cases hn : numericIdxs t = []
      · simp [processSheets, summaryOf, hn, ih]
      · simp [processSheets, summaryOf, hn, ih]

/-- Closed form of `all_data`. -/
theorem processSheets_allData_eq (sheets : List (String × Except String Table)) :
    (processSheets sheets).2.2 = sheets.filterMap allDataOf := by
  induction sheets with
  | nil => simp [processSheets]
  | cons hd tl ih =>
    obtain ⟨name, exc⟩ := hd
    cases exc with
    | error e => simp [processSheets, allDataOf, ih]
    | ok t =>
      by_cases hn : numericIdxs t = []
      · simp [processSheets, allDataOf, hn, ih]
      · simp [processSheets, allDataOf, hn, ih]

/-- Summary keys are exactly the unannotated outcome names. -/
theorem summary_keys_eq_ok_outcomes (sheets : List (String × Except String Table)) :
    (processSheets sheets).2.1.map Prod.fst
      = (processSheets sheets).1.filterMap Outcome.okName := by
  induction sheets with
  | nil => simp [processSheets]
  | cons hd tl ih =>
    obtain ⟨name, exc⟩ := hd
    cases exc with
    | error e => simp [processSheets, Outcome.okName, ih]
    | ok t =>
      by_cases hn : numericIdxs t = []
      · simp [processSheets, hn, ih]
      · simp [processSheets, hn, Outcome.okName, ih]

/-- Summary keys are exactly the retained-table keys. -/
theorem summary_keys_eq_allData_keys (sheets : List (String × Except String Table)) :
    (processSheets sheets).2.1.map Prod.fst = (processSheets sheets).2.2.map Prod.fst := by
  induction sheets with
  | nil => rfl
  | cons hd tl ih =>
    obtain ⟨name, exc⟩ := hd
    cases exc with
    | error e => simpa [processSheets] using ih
    | ok t =>
      by_cases hn : numericIdxs t = []
      · simpa [processSheets, hn] using ih
      · simpa [processSheets, hn] using ih

/-- Every summary key is the name of some input sheet. -/
theorem summary_key_mem_sheets (sheets : List (String × Except String Table))
    (k : String) (hk : k ∈ (processSheets sheets).2.1.map Prod.fst) :
    k ∈ sheets.map Prod.fst := by
  rw [processSheets_summary_eq] at hk
  obtain ⟨⟨n, s⟩, hmem, hn⟩ := List.exists_of_mem_map hk
  obtain ⟨p, hp, hps⟩ := List.mem_filterMap.mp hmem
  refine List.mem_map.mpr ⟨p, hp, ?_⟩
  unfold summaryOf at hps
  rcases p with ⟨pn, pe⟩
  cases pe with
  | error e => simp at hps
  | ok t =>
    by_cases hnum : numericIdxs t = []
    · simp [hnum] at hps
    · simp [hnum] at hps
      simp [← hps.1, ← hn]

/-- The sample variance is nonnegative whenever at least two values exist. -/
theorem sampleVar_nonneg (l : List ℚ) (h : 1 < l.length) : 0 ≤ sampleVar l := by
  unfold sampleVar
  apply div_nonneg
  · apply List.sum_nonneg
    intro x hx
    obtain ⟨y, _, hy⟩ := List.mem_map.mp hx
    rw [← hy]
    positivity
  · have : (2 : ℚ) ≤ (l.length : ℚ) := by exact_mod_cast h
    linarith

/-- The scenario column's statistics, computed. -/
theorem computeStats_sales :
    computeStats [(10 : ℚ), 20, 30] = salesStats := by
  simp [computeStats, salesStats, listMean, listMedian, listMin, listMax, sampleVar,
    sortQ, insertSorted]
  norm_num

/-! ### Reading cells back from the builder sequence -/

theorem getCell_append (a b : List ((ℕ × ℕ) × CellVal)) (r c : ℕ) :
    getCell (a ++ b) r c = ((getCell b r c).or (getCell a r c)) := by
  unfold getCell
  rw [List.reverse_append, List.find?_append]
  cases hb : b.reverse.find? (fun p => p.1.1 == r && p.1.2 == c) <;> simp [hb]

theorem getCell_singleton (i k : ℕ) (v : CellVal) (r c : ℕ) :
    getCell [((i, k), v)] r c = if i = r ∧ k = c then some v else none := by
  unfold getCell
  cases hb : ((i == r) && (k == c)) with
  | true =>
    have heq := hb
    rw [Bool.and_eq_true, beq_iff_eq, beq_iff_eq] at heq
    simp [List.find?, hb, heq.1, heq.2]
  | false =>
    have hne : ¬(i = r ∧ k = c) := by
      intro hc
      rw [hc.1, hc.2] at hb
      simp at hb
    simp [List.find?, hb, hne]

theorem getCell_cons (w : (ℕ × ℕ) × CellVal) (ws : List ((ℕ × ℕ) × CellVal)) (r c : ℕ) :
    getCell (w :: ws) r c = (getCell ws r c).or (getCell [w] r c) := by
  simpa using getCell_append [w] ws r c

theorem getCell_cellRowWrites_ne_row (i k : ℕ) (vs : List CellVal) (r c : ℕ)
    (h : r ≠ i) : getCell (cellRowWrites i k vs) r c = none := by
  induction vs generalizing k with
  | nil => rfl
  | cons v vs ih =>
    rw [cellRowWrites, getCell_cons, ih (k + 1), getCell_singleton]
    have hne : ¬(i = r ∧ k = c) := fun hc => h hc.1.symm
    simp [hne]

theorem getCell_cellRowWrites_lt (i k : ℕ) (vs : List CellVal) (c : ℕ)
    (h : c < k) : getCell (cellRowWrites i k vs) i c = none := by
  induction vs generalizing k with
  | nil => rfl
  | cons v vs ih =>
    rw [cellRowWrites, getCell_cons, ih (k + 1) (by omega), getCell_singleton]
    have hne : ¬(i = i ∧ k = c) := by
      rintro ⟨-, rfl⟩
      omega
    simp [hne]
    omega

theorem getCell_cellRowWrites (i k : ℕ) (vs : List CellVal) (j : ℕ) (v : CellVal)
    (h : vs[j]? = some v) : getCell (cellRowWrites i k vs) i (k + j) = some v := by
  induction vs generalizing k j with
  | nil => simp at h
  | cons w ws ih =>
    cases j with
    | zero =>
      simp at h
      rw [cellRowWrites, getCell_cons, getCell_cellRowWrites_lt i (k + 1) ws (k + 0) (by omega),
        getCell_singleton]
      simp [h]
    | succ j =>
      simp at h
      rw [cellRowWrites, getCell_cons, getCell_singleton]
      have : k + (j + 1) = (k + 1) + j := by omega
      rw [this, ih (k + 1) j h]
      simp

theorem getCell_dataWrites_lt (i : ℕ) (rs : List (List Scalar)) (r c : ℕ)
    (h : r < i) : getCell (dataWrites i rs) r c = none := by
  induction rs generalizing i with
  | nil => rfl
  | cons row rows ih =>
    rw [dataWrites, getCell_append, ih (i + 1) (by omega),
      getCell_cellRowWrites_ne_row i 1 _ r c (by omega)]
    rfl

theorem getCell_dataWrites (i : ℕ) (rs : List (List Scalar)) (a : ℕ) (row : List Scalar)
    (ha : rs[a]? = some row) (j : ℕ) (v : CellVal)
    (hj : (row.map scalarToCell)[j]? = some v) :
    getCell (dataWrites i rs) (i + a) (1 + j) = some v := by
  induction rs generalizing i a with
  | nil => simp at ha
  | cons r0 rows ih =>
    cases a with
    | zero =>
      simp at ha
      subst ha
      simp only [Nat.add_zero]
      rw [dataWrites, getCell_append, getCell_dataWrites_lt (i + 1) rows i _ (by omega),
        getCell_cellRowWrites i 1 _ j v hj]
      rfl
    | succ a =>
      simp at ha
      rw [dataWrites, getCell_append,
        getCell_cellRowWrites_ne_row i 1 _ (i + (a + 1)) (1 + j) (by omega)]
      have : i + (a + 1) = (i + 1) + a := by omega
      rw [this, ih (i + 1) a ha]
      rfl

/-- Sanity: the fallible model with the real builder agrees with the total pipeline -/
theorem processExcelFileE_agrees (sheets : List (String × Except String Table)) (fn : String) :
    processExcelFileE (fun sm ad => Except.ok (createSummaryExcel sm ad)) sheets fn
      = Except.ok (processExcelFile sheets fn) := by
  unfold processExcelFileE processExcelFile
  by_cases h : (processSheets sheets).2.1.isEmpty <;> simp [h]

/-! ### Claims -/

/-- C1: for a non-empty numeric column, the computed standard deviation is
exactly `0` when `count = 1`, and for `count > 1` it is exactly the sample
standard deviation with the `(n − 1)` divisor: the nonnegative real whose
square is `sampleVar`. This policy has no further exceptions. -/
theorem C1_std_policy (l : List ℚ) (h : l ≠ []) :
    ((computeStats l).count = 1 → (computeStats l).std = 0) ∧
    (1 < (computeStats l).count →
      (computeStats l).std = Real.sqrt ((sampleVar l : ℚ) : ℝ) ∧
      (computeStats l).std ^ 2 = ((sampleVar l : ℚ) : ℝ) ∧
      0 ≤ (computeStats l).std) := by
  have hcount : (computeStats l).count = l.length := rfl
  constructor
  · intro h1
    rw [hcount] at h1
    have : ¬ 1 < l.length := by omega
    simp [ColumnStats.std, computeStats, this]
  · intro h1
    rw [hcount] at h1
    have hstd : (computeStats l).std = Real.sqrt ((sampleVar l : ℚ) : ℝ) := by
      simp [ColumnStats.std, computeStats, h1]
    refine ⟨hstd, ?_, ?_⟩
    · rw [hstd]
      apply Real.sq_sqrt
      exact_mod_cast sampleVar_nonneg l h1
    · rw [hstd]
      exact Real.sqrt_nonneg _

/-- Witness for C1 at the concrete columns `[5]` and `[1, 2]`. -/
theorem C1_std_policy_witness :
    (computeStats [(5 : ℚ)]).std = 0 ∧
    (computeStats [(1 : ℚ), 2]).std ^ 2 = ((sampleVar [(1 : ℚ), 2] : ℚ) : ℝ) :=
  ⟨(C1_std_policy [5] (by decide)).1 (by decide),
   ((C1_std_policy [1, 2] (by decide)).2 (by decide)).2.1⟩

/-- C2 counterexample: the sheet `Notes` reads without any exception but has
no numeric column, and its name is NOT appended to `sheets_processed` (the
appends at lines 93–95 sit inside `if numeric_cols:`), contradicting the
claim that every exception-free sheet is appended. -/
theorem C2_counterexample :
    (processExcelFile [("Notes", Except.ok notesTable)] "input.xlsx").sheetsProcessed = [] ∧
    "Notes" ∉ (processExcelFile [("Notes", Except.ok notesTable)] "input.xlsx").sheetsProcessed := by
  constructor
  · rfl
  · decide

/-- C2 amended: a sheet whose processing raises no exception is appended to
the outcome list iff it has at least one numeric column; an exception-free
sheet with no numeric columns is silently omitted (errored sheets are
appended with the error annotation). -/
theorem C2_amended_outcomes (sheets : List (String × Except String Table)) :
    (processSheets sheets).1 =
      sheets.filterMap (fun p =>
        match p.2 with
        | Except.error e => some (Outcome.errored p.1 e)
        | Except.ok t =>
          if numericIdxs t = [] then none else some (Outcome.ok p.1)) :=
  processSheets_outcomes_eq sheets

/-- C3 counterexample: a sheet whose only column is numeric but entirely
missing gets the summary entry `("S", ∅)` (lines 78–93 guard only on
`numeric_cols`, not on any computed column), which is non-empty as a
mapping, so the output workbook IS produced although no numeric column has
a single non-missing value — contradicting both directions the claim
states. -/
theorem C3_counterexample :
    (processExcelFile [("S", Except.ok nanTable)] "input.xlsx").summary = [("S", [])] ∧
    ((processExcelFile [("S", Except.ok nanTable)] "input.xlsx").outputFile).isSome = true := by
  constructor
  · rfl
  · rfl

/-- C3 amended: the output workbook (and the output filename) is produced
iff the statistics mapping is non-empty, and a sheet has a statistics entry
iff it was read without exception and has at least one numeric column —
even when that entry is an empty SheetAnalysis because no numeric column
holds a non-missing value. -/
theorem C3_amended_output_iff (sheets : List (String × Except String Table))
    (fn : String) :
    (((processExcelFile sheets fn).outputFile).isSome = true ↔
        (processExcelFile sheets fn).summary ≠ []) ∧
    (((processExcelFile sheets fn).outputFilename).isSome = true ↔
        (processExcelFile sheets fn).summary ≠ []) ∧
    (processExcelFile sheets fn).summary.map Prod.fst =
      sheets.filterMap (fun p =>
        match p.2 with
        | Except.error _ => none
        | Except.ok t => if numericIdxs t = [] then none else some p.1) := by
  refine ⟨?_, ?_, ?_⟩
  · simp only [processExcelFile]
    by_cases h : (processSheets sheets).2.1.isEmpty
    · simp [h, List.isEmpty_iff.mp h]
    · have hne : (processSheets sheets).2.1 ≠ [] := by simpa [List.isEmpty_iff] using h
      simp [h, hne]
  · simp only [processExcelFile]
    by_cases h : (processSheets sheets).2.1.isEmpty
    · simp [h, List.isEmpty_iff.mp h]
    · have hne : (processSheets sheets).2.1 ≠ [] := by simpa [List.isEmpty_iff] using h
      simp [h, hne]
  · show (processSheets sheets).2.1.map Prod.fst = _
    rw [processSheets_summary_eq, List.map_filterMap]
    apply List.filterMap_congr
    intro ⟨n, exc⟩ _
    cases exc with
    | error e => rfl
    | ok t =>
      by_cases hn : numericIdxs t = [] <;> simp [summaryOf, hn]

/-- Witness for C3's amended statement at the all-missing-column workbook:
the summary is non-empty and the output workbook is indeed produced. -/
theorem C3_amended_witness :
    ((processExcelFile [("S", Except.ok nanTable)] "input.xlsx").outputFile).isSome = true :=
  (C3_amended_output_iff [("S", Except.ok nanTable)] "input.xlsx").1.mpr (by decide)

/-- C4: a sheet that raises while being read contributes exactly the entry
`"{name} (ERROR: {message})"` to `sheets_processed`, contributes nothing to
the summary mapping or the retained tables, and the sheets after it are
processed exactly as they would be on their own. -/
theorem C4_per_sheet_error (pre post : List (String × Except String Table))
    (name msg fn : String) :
    (processExcelFile (pre ++ (name, Except.error msg) :: post) fn).sheetsProcessed
      = (processSheets pre).1.map Outcome.render ++
        (name ++ " (ERROR: " ++ msg ++ ")") :: (processSheets post).1.map Outcome.render ∧
    (processExcelFile (pre ++ (name, Except.error msg) :: post) fn).summary
      = (processSheets pre).2.1 ++ (processSheets post).2.1 ∧
    (processSheets (pre ++ (name, Except.error msg) :: post)).2.2
      = (processSheets pre).2.2 ++ (processSheets post).2.2 := by
  have hsplit := processSheets_append pre ((name, Except.error msg) :: post)
  have hcons : processSheets ((name, Except.error msg) :: post)
      = (Outcome.errored name msg :: (processSheets post).1,
         (processSheets post).2.1, (processSheets post).2.2) := by
    simp [processSheets]
  refine ⟨?_, ?_, ?_⟩
  · show (processSheets (pre ++ (name, Except.error msg) :: post)).1.map Outcome.render = _
    rw [hsplit]
    simp [hcons, Outcome.render]
  · show (processSheets (pre ++ (name, Except.error msg) :: post)).2.1 = _
    rw [hsplit]
    simp [hcons]
  · rw [hsplit]
    simp [hcons]

/-- C5: under distinct sheet names, every summary key appears as an
unannotated (successful) outcome — hence verbatim in `sheets_processed` —
and no sheet that errored has a summary entry. -/
theorem C5_summary_subset_processed (sheets : List (String × Except String Table))
    (hnd : (sheets.map Prod.fst).Nodup) (fn : String) :
    (∀ k ∈ (processExcelFile sheets fn).summary.map Prod.fst,
        Outcome.ok k ∈ (processSheets sheets).1 ∧
        k ∈ (processExcelFile sheets fn).sheetsProcessed) ∧
    (∀ n m, Outcome.errored n m ∈ (processSheets sheets).1 →
        n ∉ (processExcelFile sheets fn).summary.map Prod.fst) := by
  have hsum : (processExcelFile sheets fn).summary = (processSheets sheets).2.1 := rfl
  have hproc : (processExcelFile sheets fn).sheetsProcessed
      = (processSheets sheets).1.map Outcome.render := rfl
  constructor
  · intro k hk
    rw [hsum] at hk
    have hok : Outcome.ok k ∈ (processSheets sheets).1 := by
      rw [summary_keys_eq_ok_outcomes] at hk
      obtain ⟨o, ho, hko⟩ := List.mem_filterMap.mp hk
      cases o with
      | ok n =>
        simp [Outcome.okName] at hko
        rwa [hko] at ho
      | errored n m => simp [Outcome.okName] at hko
    exact ⟨hok, by
      rw [hproc]
      exact List.mem_map.mpr ⟨Outcome.ok k, hok, rfl⟩⟩
  · intro n m hmem hkey
    rw [hsum] at hkey
    rw [processSheets_outcomes_eq] at hmem
    obtain ⟨p, hp, hpo⟩ := List.mem_filterMap.mp hmem
    have hperr : p = (n, Except.error m) := by
      rcases p with ⟨pn, pe⟩
      cases pe with
      | error e =>
        simp [outcomeOf] at hpo
        simp [hpo.1, hpo.2]
      | ok t =>
        by_cases hn : numericIdxs t = [] <;> simp [outcomeOf, hn] at hpo
    rw [processSheets_summary_eq] at hkey
    obtain ⟨⟨sn, ss⟩, hsmem, hsn⟩ := List.exists_of_mem_map hkey
    obtain ⟨q, hq, hqs⟩ := List.mem_filterMap.mp hsmem
    have hqok : q.1 = n ∧ ∃ t, q.2 = Except.ok t := by
      rcases q with ⟨qn, qe⟩
      cases qe with
      | error e => simp [summaryOf] at hqs
      | ok t =>
        by_cases hn : numericIdxs t = []
        · simp [summaryOf, hn] at hqs
        · simp [summaryOf, hn] at hqs
          exact ⟨hqs.1.trans (by simpa using hsn), t, rfl⟩
    have hpq : p = q := by
      apply List.inj_on_of_nodup_map hnd (hp) (hq)
      rw [hperr, hqok.1]
    obtain ⟨t, ht⟩ := hqok.2
    rw [hperr] at hpq
    rw [← hpq] at ht
    simp at ht

/-- Witness for C5 at a mixed workbook: `Sales` is a successful outcome and
the errored sheet `Bad` has no summary key. -/
theorem C5_witness :
    Outcome.ok "Sales" ∈ (processSheets mixedSheets).1 ∧
    "Bad" ∉ (processExcelFile mixedSheets "f").summary.map Prod.fst := by
  have h := C5_summary_subset_processed mixedSheets (by decide) "f"
  exact ⟨(h.1 "Sales" (by decide)).1, h.2 "Bad" "boom" (by decide)⟩

/-- C6: the spec scenario — a workbook whose single sheet `Sales` has the
numeric column `Revenue = [10, 20, 30]` yields
`summary["Sales"]["Revenue"] = {mean 20, median 20, std 10, min 10, max 30,
count 3}` and the generated workbook's sheets are `Summary_Statistics` and
`Original_Sales`. -/
theorem C6_sales_scenario :
    (processExcelFile salesSheets "sales.xlsx").summary
        = [("Sales", [("Revenue", salesStats)])] ∧
    salesStats.mean = 20 ∧ salesStats.median = 20 ∧ salesStats.std = 10 ∧
    salesStats.min = 10 ∧ salesStats.max = 30 ∧ salesStats.count = 3 ∧
    (processExcelFile salesSheets "sales.xlsx").outputFile.map (List.map Sheet.name)
        = some ["Summary_Statistics", "Original_Sales"] := by
  refine ⟨?_, rfl, rfl, ?_, rfl, rfl, rfl, by decide⟩
  · have hn : numericIdxs salesTable = [0] := by decide
    have hd : dropna (colCells salesTable 0) = [10, 20, 30] := rfl
    have hh : salesTable.header[0]?.getD "" = "Revenue" := rfl
    have h : sheetStats salesTable = [("Revenue", salesStats)] := by
      simp [sheetStats, hn, hd, hh, computeStats_sales]
    show (processSheets salesSheets).2.1 = _
    simp [processSheets, salesSheets, h, hn]
  · show Real.sqrt ((salesStats.stdSq : ℚ) : ℝ) = 10
    have : ((salesStats.stdSq : ℚ) : ℝ) = (10 : ℝ) ^ 2 := by
      norm_num [salesStats]
    rw [this, Real.sqrt_sq (by norm_num)]

/-- C7: the `Original_{name}` sheet round-trips the retained table
cell-for-cell — the header at row 1, and every data-row value verbatim at
rows 2.., in the same row and column order. -/
theorem C7_round_trip (name : String) (t : Table) :
    (∀ j h, t.header[j]? = some h →
        getCell (originalSheet name t).cells 1 (1 + j) = some (CellVal.str h)) ∧
    (∀ a row, t.rows[a]? = some row → ∀ j v, row[j]? = some v →
        getCell (originalSheet name t).cells (2 + a) (1 + j) = some (scalarToCell v)) := by
  constructor
  · intro j h hj
    show getCell (cellRowWrites 1 1 (t.header.map CellVal.str) ++ dataWrites 2 t.rows) 1 (1 + j)
        = some (CellVal.str h)
    rw [getCell_append, getCell_dataWrites_lt 2 t.rows 1 (1 + j) (by omega)]
    have hm : (t.header.map CellVal.str)[j]? = some (CellVal.str h) := by
      simp [hj]
    rw [getCell_cellRowWrites 1 1 _ j _ hm]
    rfl
  · intro a row ha j v hv
    show getCell (cellRowWrites 1 1 (t.header.map CellVal.str) ++ dataWrites 2 t.rows)
        (2 + a) (1 + j) = some (scalarToCell v)
    rw [getCell_append]
    have hm : (row.map scalarToCell)[j]? = some (scalarToCell v) := by simp [hv]
    rw [getCell_dataWrites 2 t.rows a row ha j _ hm]
    rfl

/-- Witness for C7 at the scenario table. -/
theorem C7_witness :
    getCell (originalSheet "Sales" salesTable).cells 1 1 = some (CellVal.str "Revenue") ∧
    getCell (originalSheet "Sales" salesTable).cells 2 1 = some (CellVal.rat 10) := by
  have h := C7_round_trip "Sales" salesTable
  exact ⟨h.1 0 "Revenue" rfl, h.2 0 [Scalar.num 10] rfl 0 (Scalar.num 10) rfl⟩

/-- C8: a bar chart is attempted on `Original_{name}` exactly when the
table has a numeric column and at least two rows; it plots the first
numeric column over rows `2 .. min(20, rowCount+1)`, hence at most 19 data
points. (Chart construction failure is the swallowed `try/except` at lines
172–185; the sheet's cells are written before it and are unaffected.) -/
theorem C8_chart_condition (name : String) (t : Table) :
    ((chartSpec name t).isSome = true ↔ (numericIdxs t ≠ [] ∧ 2 ≤ t.rows.length)) ∧
    (∀ c, chartSpec name t = some c →
        c.title = "Data Overview - " ++ name ∧
        c.minCol = (numericIdxs t).headD 0 + 1 ∧
        c.minRow = 2 ∧ c.maxRow = Nat.min 20 (t.rows.length + 1) ∧
        c.maxRow - c.minRow + 1 ≤ 19) := by
  have htake : ((numericIdxs t).take 5 ≠ []) ↔ (numericIdxs t ≠ []) := by
    cases numericIdxs t <;> simp
  have hhead : ((numericIdxs t).take 5).headD 0 = (numericIdxs t).headD 0 := by
    cases numericIdxs t <;> simp
  constructor
  · unfold chartSpec
    by_cases h : (numericIdxs t).take 5 ≠ [] ∧ 1 < t.rows.length
    · simp only [if_pos h]
      simp only [Option.isSome_some, true_iff]
      exact ⟨htake.mp h.1, h.2⟩
    · simp only [if_neg h]
      simp only [Option.isSome_none, Bool.false_eq_true, false_iff]
      intro hc
      exact h ⟨htake.mpr hc.1, hc.2⟩
  · intro c hc
    unfold chartSpec at hc
    by_cases h : (numericIdxs t).take 5 ≠ [] ∧ 1 < t.rows.length
    · rw [if_pos h] at hc
      obtain rfl := (Option.some_inj.mp hc).symm
      refine ⟨rfl, by simp only [hhead], rfl, rfl, ?_⟩
      show Nat.min 20 (t.rows.length + 1) - 2 + 1 ≤ 19
      have hle : Nat.min 20 (t.rows.length + 1) ≤ 20 := Nat.min_le_left _ _
      omega
    · rw [if_neg h] at hc
      exact absurd hc (by simp)

/-- Witness for C8 at the scenario table. -/
theorem C8_witness :
    (chartSpec "Sales" salesTable).isSome = true ∧
    salesChart.maxRow - salesChart.minRow + 1 ≤ 19 := by
  have h := C8_chart_condition "Sales" salesTable
  exact ⟨h.1.mpr ⟨by decide, by decide⟩,
    ((h.2 salesChart (by decide)).2.2.2.2)⟩

/-- C9: summary keys, unannotated outcome entries and retained-table keys
are all equal as lists, and the generated workbook's `Original_{name}`
sheets are exactly those keys in order — the spec's subset relation is an
equality. -/
theorem C9_three_way_equality (sheets : List (String × Except String Table)) (fn : String) :
    ((processExcelFile sheets fn).summary.map Prod.fst
        = (processSheets sheets).1.filterMap Outcome.okName) ∧
    ((processExcelFile sheets fn).summary.map Prod.fst
        = (processSheets sheets).2.2.map Prod.fst) ∧
    (∀ sm ad, (createSummaryExcel sm ad).map Sheet.name
        = "Summary_Statistics" :: ad.map (fun p => "Original_" ++ p.1)) ∧
    ((processExcelFile sheets fn).outputFile.map (List.map Sheet.name)
        = if (processExcelFile sheets fn).summary.isEmpty then none
          else some ("Summary_Statistics" ::
            (processExcelFile sheets fn).summary.map (fun p => "Original_" ++ p.1))) := by
  have hb : ∀ (sm : List (String × SheetStats)) (ad : List (String × Table)),
      (createSummaryExcel sm ad).map Sheet.name
        = "Summary_Statistics" :: ad.map (fun p => "Original_" ++ p.1) := by
    intro sm ad
    simp [createSummaryExcel, summarySheetOf, originalSheet]
  refine ⟨summary_keys_eq_ok_outcomes sheets, summary_keys_eq_allData_keys sheets, hb, ?_⟩
  have hs : (processExcelFile sheets fn).summary = (processSheets sheets).2.1 := rfl
  have ho : (processExcelFile sheets fn).outputFile
      = if (processSheets sheets).2.1.isEmpty then none
        else some (createSummaryExcel (processSheets sheets).2.1 (processSheets sheets).2.2) :=
    rfl
  rw [hs, ho]
  by_cases h : (processSheets sheets).2.1.isEmpty
  · simp [h]
  · simp only [if_neg h, Option.map_some']
    rw [hb]
    have hkeys : (processSheets sheets).2.2.map (fun p => "Original_" ++ p.1)
        = (processSheets sheets).2.1.map (fun p => "Original_" ++ p.1) := by
      have hk := summary_keys_eq_allData_keys sheets
      calc (processSheets sheets).2.2.map (fun p => "Original_" ++ p.1)
          = ((processSheets sheets).2.2.map Prod.fst).map (fun s => "Original_" ++ s) := by
            rw [List.map_map]
            rfl
        _ = ((processSheets sheets).2.1.map Prod.fst).map (fun s => "Original_" ++ s) := by
            rw [hk]
        _ = (processSheets sheets).2.1.map (fun p => "Original_" ++ p.1) := by
            rw [List.map_map]
            rfl
    rw [hkeys]

/-- C10: if the report builder raises after the per-sheet statistics were
computed, the whole request returns the single 500 error response carrying
the builder's message; the computed statistics and outcome list are
discarded. -/
theorem C10_builder_failure_fatal
    (builder : List (String × SheetStats) → List (String × Table) → Except String Workbook)
    (sheets : List (String × Except String Table)) (fn e : String)
    (hne : (processSheets sheets).2.1 ≠ [])
    (hb : builder (processSheets sheets).2.1 (processSheets sheets).2.2 = Except.error e) :
    mainHandler builder { filename := some fn, content := some (Except.ok sheets) }
      = HttpResponse.err e 500 := by
  unfold mainHandler
  simp only [Option.getD_some]
  unfold processExcelFileE
  rw [if_neg (by simpa [List.isEmpty_iff] using hne), hb]

/-- Witness for C10: a builder that always fails on the scenario input. -/
theorem C10_witness :
    mainHandler (fun _ _ => Except.error "boom")
      { filename := some "sales.xlsx", content := some (Except.ok salesSheets) }
      = HttpResponse.err "boom" 500 :=
  C10_builder_failure_fatal (fun _ _ => Except.error "boom") salesSheets "sales.xlsx" "boom"
    (by decide) rfl

end XP
